import Mathlib

/-!
Shallow embedding of `crowdsource_data_from_netatmo/data-netatmo/data-netatmo/utility.py`.

The network is modelled by response oracles: a function from the index of the
request (in issue order) to the upstream answer of that request.  Uncaught
Python exceptions are modelled by `Except.error`; functions additionally
return the number of HTTP requests they issued.  JSON numeric fields that no
modelled code computes with (coordinates, altitude, sensor readings) are
abstracted: strings keep their rendered string form, sensor readings become
integers.  Real sleeping (`time.sleep`) and printing are I/O without
data-flow into the results and are not modelled.
-/

/-- A Python exception escaping one of the modelled functions. -/
inductive PyErr where
  | keyError (key : String)
  | connectionError
deriving DecidableEq, Repr

/-- One station object of the getpublicdata response body, as read by
utility.py lines 117-128.  The fields are the keys the code accesses. -/
structure Station where
  _id : String
  modules : List String
  place_location : String × String
  place_altitude : String
  place_city : Option String
deriving DecidableEq, Repr

/-- The per-station record stored into the `ids` dictionary
(utility.py lines 127-128). -/
structure StationInfo where
  module_name : List String
  location : String × String
  altitude : String
  city : String
  full_modules : List String
deriving DecidableEq, Repr

/-- Insertion-ordered dictionary, modelling the Python dict `ids`. -/
abbrev IdsDict := List (String × StationInfo)

/-- Python dict assignment `ids[_id] = v`: an existing key is updated in
place keeping its position, a new key is appended at the end. -/
def dictInsert (d : IdsDict) (k : String) (v : StationInfo) : IdsDict :=
  if k ∈ d.map Prod.fst then d.map (fun p => if p.1 = k then (k, v) else p)
  else d ++ [(k, v)]

/-- utility.py lines 119-128: the record built for one station.  `module_name`
keeps the modules whose identifier starts with the rain-gauge type code
`02:`; a missing `city` key defaults to `no city`. -/
def stationInfoOf (st : Station) : StationInfo :=
  { module_name := st.modules.filter (fun n => n.startsWith ("02:"))
  , location := st.place_location
  , altitude := st.place_altitude
  , city := st.place_city.getD ("no city")
  , full_modules := st.modules }

/-- utility.py lines 117-128: the `for station in data` loop over the body. -/
def processStations (data : List Station) (ids : IdsDict) : IdsDict :=
  data.foldl (fun d st => dictInsert d st._id (stationInfoOf st)) ids

/-- One upstream answer to the getpublicdata POST at utility.py line 114:
the request itself may raise (`netErr`, e.g. a connection error),
`raise_for_status` may raise (`httpErr`, a non-2xx status), or a JSON
document is obtained whose `body` key is either absent (`okRaw none`) or
holds a list of stations (`okRaw (some data)`). -/
inductive IdsResponse where
  | netErr
  | httpErr (code : Nat) (text : String)
  | okRaw (body : Option (List Station))
deriving DecidableEq, Repr

/-- utility.py lines 107-148: the retry loop of `get_ids`.  `retriesLeft` is
`5 - retry_count`; `attempt` counts requests already issued; the oracle
`resp` gives the upstream answer to the k-th request.  Returns the Python
return value (or the escaping exception) paired with the total number of
requests issued.  A `netErr` propagates (nothing catches it); a success
without a `body` key propagates as the `KeyError` of line 116; an HTTP error
or a NameError raised for an empty accumulated dict (line 133) consumes one
retry, and with no retries left returns the empty dict. -/
def getIdsAux (resp : Nat → IdsResponse) :
    Nat → Nat → IdsDict → Except PyErr IdsDict × Nat
  | retriesLeft, attempt, ids =>
    match resp attempt with
    | .netErr => (.error .connectionError, attempt + 1)
    | .okRaw none => (.error (.keyError ("body")), attempt + 1)
    | .httpErr _ _ =>
        match retriesLeft with
        | 0 => (.ok [], attempt + 1)
        | rl + 1 => getIdsAux resp rl (attempt + 1) ids
    | .okRaw (some data) =>
        let ids2 := processStations data ids
        if ids2.isEmpty then
          match retriesLeft with
          | 0 => (.ok [], attempt + 1)
          | rl + 1 => getIdsAux resp rl (attempt + 1) ids2
        else (.ok ids2, attempt + 1)

/-- utility.py lines 85-148: `get_ids`, starting with an empty dict,
`retry_count = 0` (five retries available) and no request issued yet.
The access token and bounding-box coordinates only shape the request and
are absorbed into the response oracle. -/
def get_ids (resp : Nat → IdsResponse) : Except PyErr IdsDict × Nat :=
  getIdsAux resp 5 0 []

/-- Gregorian leap-year rule, as applied by Python's datetime. -/
def isLeap (y : Nat) : Bool :=
  (y % 4 == 0 && y % 100 != 0) || y % 400 == 0

/-- Length of a month in Python's proleptic Gregorian calendar. -/
def daysInMonth (y m : Nat) : Nat :=
  if m = 2 then (if isLeap y then 29 else 28)
  else if m = 4 ∨ m = 6 ∨ m = 9 ∨ m = 11 then 30
  else 31

/-- Numeric value of a decimal digit character. -/
def digitVal (c : Char) : Nat := c.toNat - 48

/-- Decimal value of a digit list, most significant first. -/
def natOfDigits (cs : List Char) : Nat :=
  cs.foldl (fun a c => a * 10 + digitVal c) 0

/-- `datetime.strptime(date_string, %Y%m%d)` at utility.py line 34,
restricted to the documented zero-padded `yyyymmdd` form, together with the
calendar validation the datetime constructor performs; `none` models the
ValueError raised on any other input. -/
def parseDate (s : String) : Option (Nat × Nat × Nat) :=
  let cs := s.toList
  if cs.length = 8 ∧ cs.all Char.isDigit then
    let y := natOfDigits (cs.take 4)
    let m := natOfDigits ((cs.drop 4).take 2)
    let d := natOfDigits (cs.drop 6)
    if 1 ≤ y ∧ 1 ≤ m ∧ m ≤ 12 ∧ 1 ≤ d ∧ d ≤ daysInMonth y m then some (y, m, d)
    else none
  else none

/-- `datetime.strptime(time_string, %H%M)` at utility.py line 35, restricted
to the documented zero-padded `hhmm` form; `none` models the ValueError. -/
def parseTime (s : String) : Option (Nat × Nat) :=
  let cs := s.toList
  if cs.length = 4 ∧ cs.all Char.isDigit then
    let hh := natOfDigits (cs.take 2)
    let mm := natOfDigits (cs.drop 2)
    if hh ≤ 23 ∧ mm ≤ 59 then some (hh, mm) else none
  else none

/-- Days from 1970-01-01 to the Gregorian date y-m-d (civil-days algorithm),
used to model `datetime.timestamp()`. -/
def daysFromCivil (y m d : Nat) : Int :=
  let yAdj := if m ≤ 2 then y - 1 else y
  let era := yAdj / 400
  let yoe := yAdj % 400
  let mp := (m + 9) % 12
  let doy := (153 * mp + 2) / 5 + d - 1
  let doe := yoe * 365 + yoe / 4 - yoe / 100 + doy
  ((era * 146097 + doe : Nat) : Int) - 719468

/-- utility.py lines 21-45: `convert_to_unix_timestamp`.  `tzoff` is the UTC
offset (in seconds east) that the runtime applies when `timestamp()`
interprets the naive datetime in local time; daylight saving is absorbed
into the offset parameter.  The printed diagnostic of the except branch is
I/O and not modelled; the caught ValueError becomes the `none` result. -/
def convert_to_unix_timestamp (tzoff : Int) (date_string time_string : String) :
    Option Int :=
  match parseDate date_string, parseTime time_string with
  | some (y, m, d), some (hh, mm) =>
      some (daysFromCivil y m d * 86400 + (hh : Int) * 3600 + (mm : Int) * 60 - tzoff)
  | _, _ => none

/-- One measurement entry of the getmeasure response body: a starting
timestamp, the step size reported by the API (read nowhere: line 248 and
line 293 of utility.py are commented out), and the list of value triples
(temperature, humidity, pressure), abstracted as integers. -/
structure Entry where
  beg_time : Int
  step_time : Int
  value : List (Int × Int × Int)
deriving DecidableEq, Repr

/-- The JSON document of a 200 getmeasure answer: the `body` key may be
absent or hold a list of entries. -/
inductive MeasJson where
  | noBody
  | withBody (entries : List Entry)
deriving DecidableEq, Repr

/-- One upstream answer to the getmeasure GET at utility.py line 196: the
request may raise (`netErr`), return a non-200 status, or return a JSON
document. -/
inductive MeasHttp where
  | netErr
  | errStatus (code : Nat)
  | ok (json : MeasJson)
deriving DecidableEq, Repr

/-- utility.py lines 166-201: `get_historical_measurements` returns the
parsed JSON on status 200 and None otherwise; an exception of the request
itself propagates.  All query parameters are absorbed into the answer. -/
def get_historical_measurements (r : MeasHttp) : Except PyErr (Option MeasJson) :=
  match r with
  | .netErr => .error .connectionError
  | .errStatus _ => .ok none
  | .ok j => .ok (some j)

/-- One data row of the measurement CSV of utility.py lines 249-257.
`acquisition_time` is the UNIX timestamp before the strftime rendering of
line 252 (the rendering is a function of this value). -/
structure CsvRow where
  acquisition_time : Int
  temperature : Int
  humidity : Int
  pressure : Int
deriving DecidableEq, Repr

/-- utility.py lines 250-258: the inner `for value in entry` loop, writing
one row per value triple and advancing the running timestamp by the
hard-coded `step_time = 86400` after each row. -/
def writeValues (t : Int) : List (Int × Int × Int) → List CsvRow
  | [] => []
  | v :: vs =>
      { acquisition_time := t, temperature := v.1, humidity := v.2.1, pressure := v.2.2 }
        :: writeValues (t + 86400) vs

/-- utility.py lines 249-258: the outer `for entry in body` loop.  The
running timestamp is never reset from an entry's own `beg_time`; it just
keeps advancing by 86400 per written row. -/
def writeEntriesAux (t : Int) : List Entry → List CsvRow
  | [] => []
  | e :: es => writeValues t e.value ++ writeEntriesAux (t + 86400 * (e.value.length : Int)) es

/-- The data rows `save_measurements_to_csv` appends for one batch (the
initial timestamp is `body[0].beg_time`, utility.py line 246). -/
def saveRowsOf (body : List Entry) : List CsvRow :=
  match body with
  | [] => []
  | e0 :: es => writeEntriesAux e0.beg_time (e0 :: es)

/-- utility.py lines 223-258: `save_measurements_to_csv`, as the rows it
appends to the per-device CSV file; `none` models the IndexError that
`measurements['body'][0]` raises on an empty body (the batch loop only
calls it with a non-empty body). -/
def save_measurements_to_csv (body : List Entry) : Option (List CsvRow) :=
  match body with
  | [] => none
  | e0 :: es => some (writeEntriesAux e0.beg_time (e0 :: es))

/-- `measurements["body"][-1]["beg_time"]` of utility.py line 286 (0 is never
used: the loop only reads it from a non-empty body). -/
def lastBeg : List Entry → Int
  | [] => 0
  | [e] => e.beg_time
  | _ :: e :: es => lastBeg (e :: es)

/-- Outcome of `get_historical_measurements_batch`: the returned list with
the accumulated CSV rows and the number of requests issued, an escaping
exception, or non-termination within the given fuel. -/
inductive BatchResult where
  | out (all_measurements : List Entry) (csv : List CsvRow) (requests : Nat)
  | raised (e : PyErr) (requests : Nat)
  | diverge
deriving DecidableEq, Repr

/-- utility.py lines 277-301: the `while date_begin < date_end` loop.  `k`
counts requests already issued; `resp` answers the k-th request; `acc` is
`all_measurements`; `csv` the rows written so far.  The Python loop need
not terminate (a batch whose last `beg_time` is far in the past moves the
cursor backwards), hence the explicit fuel; no claim depends on the
`diverge` case. -/
def batchAux (resp : Nat → MeasHttp) (date_end : Int) :
    Nat → Nat → Int → List Entry → List CsvRow → BatchResult
  | 0, k, date_begin, acc, csv =>
      if date_begin < date_end then .diverge else .out acc csv k
  | fuel + 1, k, date_begin, acc, csv =>
      if date_begin < date_end then
        match get_historical_measurements (resp k) with
        | .error e => .raised e (k + 1)
        | .ok none => .out acc csv (k + 1)
        | .ok (some .noBody) => .out acc csv (k + 1)
        | .ok (some (.withBody [])) => .out acc csv (k + 1)
        | .ok (some (.withBody (e0 :: es))) =>
            batchAux resp date_end fuel (k + 1) (lastBeg (e0 :: es) + 86400)
              (acc ++ (e0 :: es)) (csv ++ saveRowsOf (e0 :: es))
      else .out acc csv k

/-- utility.py lines 260-301: `get_historical_measurements_batch`, started
with an empty accumulator, an empty CSV file and no request issued. -/
def get_historical_measurements_batch (resp : Nat → MeasHttp) (fuel : Nat)
    (date_begin date_end : Int) : BatchResult :=
  batchAux resp date_end fuel 0 date_begin [] []

/-- The `body` list carried by an answer, empty for any non-page answer. -/
def respBody (r : MeasHttp) : List Entry :=
  match r with
  | .ok (.withBody b) => b
  | _ => []

/-- An answer that makes the batch loop consume the page and continue:
status 200 with a non-empty `body`. -/
def isGoodPage (r : MeasHttp) : Bool :=
  match r with
  | .ok (.withBody (_ :: _)) => true
  | _ => false

/-- An answer that makes the batch loop stop, utility.py line 281: None
(non-200 status), a document without `body`, or an empty `body`. -/
def pageStops (r : MeasHttp) : Bool :=
  match r with
  | .errStatus _ => true
  | .ok .noBody => true
  | .ok (.withBody []) => true
  | _ => false

/-- A get_ids attempt that fails in the sense of the retry loop: an HTTP
error status, or a well-formed success whose station list is empty. -/
def idsAttemptFails (r : IdsResponse) : Bool :=
  match r with
  | .httpErr _ _ => true
  | .okRaw (some []) => true
  | _ => false

/-- A getpublicdata answer on which get_ids raises nothing: an HTTP error
status or a well-formed success. -/
def idsWellFormed (r : IdsResponse) : Bool :=
  match r with
  | .netErr => false
  | .okRaw none => false
  | _ => true

/-- A getmeasure answer on which the request call raises nothing. -/
def measWellFormed (r : MeasHttp) : Bool :=
  match r with
  | .netErr => false
  | _ => true

lemma getIdsAux_all_fail (resp : Nat → IdsResponse) :
    ∀ rl k, (∀ j, j ≤ rl → idsAttemptFails (resp (k + j)) = true) →
      getIdsAux resp rl k [] = (Except.ok [], k + rl + 1) := by
  intro rl
  induction rl with
  | zero =>
      intro k h
      have h0 := h 0 (Nat.le_refl 0)
      rw [Nat.add_zero] at h0
      rcases hr : resp k with _ | ⟨c, t⟩ | b
      · rw [hr] at h0; simp [idsAttemptFails] at h0
      · simp [getIdsAux, hr]
      · rcases b with _ | (_ | ⟨st, data⟩)
        · rw [hr] at h0; simp [idsAttemptFails] at h0
        · simp [getIdsAux, hr, processStations]
        · rw [hr] at h0; simp [idsAttemptFails] at h0
  | succ rl ih =>
      intro k h
      have h0 := h 0 (Nat.zero_le _)
      rw [Nat.add_zero] at h0
      have hrec : getIdsAux resp rl (k + 1) [] = (Except.ok [], k + 1 + rl + 1) :=
        ih (k + 1) (fun j hj => by
          have hh := h (j + 1) (by omega)
          rwa [show k + (j + 1) = k + 1 + j from by omega] at hh)
      rw [show k + (rl + 1) + 1 = k + 1 + rl + 1 from by omega]
      rcases hr : resp k with _ | ⟨c, t⟩ | b
      · rw [hr] at h0; simp [idsAttemptFails] at h0
      · simp only [getIdsAux, hr]
        exact hrec
      · rcases b with _ | (_ | ⟨st, data⟩)
        · rw [hr] at h0; simp [idsAttemptFails] at h0
        · simp only [getIdsAux, hr, processStations, List.foldl_nil, List.isEmpty_nil, if_true]
          exact hrec
        · rw [hr] at h0; simp [idsAttemptFails] at h0

/-- C1: if every one of the first six attempts of get_ids fails (HTTP error
response, or a well-formed response whose station list is empty), then
get_ids returns the empty mapping after issuing exactly 6 requests: the
initial attempt plus 5 retries, with the 6th failure triggering the empty
return. -/
theorem c1_sustained_failure_six_attempts (resp : Nat → IdsResponse)
    (h : ∀ j, j < 6 → idsAttemptFails (resp j) = true) :
    get_ids resp = (Except.ok [], 6) := by
  have hmain := getIdsAux_all_fail resp 5 0 (fun j hj => by
    have hh := h j (by omega)
    simpa using hh)
  simpa [get_ids] using hmain

/-- Witness for C1: six attempts against a constantly failing endpoint. -/
theorem c1_sustained_failure_six_attempts_witness :
    get_ids (fun _ => IdsResponse.httpErr 500 ("err")) = (Except.ok [], 6) :=
  c1_sustained_failure_six_attempts (fun _ => IdsResponse.httpErr 500 ("err"))
    (fun _ _ => rfl)

/-- C10: with date_begin already at or past date_end, the batch fetcher
returns an empty list, issues no request and writes no CSV row. -/
theorem c10_empty_range_no_requests (resp : Nat → MeasHttp) (fuel : Nat)
    (date_begin date_end : Int) (h : date_end ≤ date_begin) :
    get_historical_measurements_batch resp fuel date_begin date_end =
      BatchResult.out [] [] 0 := by
  cases fuel with
  | zero => simp [get_historical_measurements_batch, batchAux, not_lt.mpr h]
  | succ f => simp [get_historical_measurements_batch, batchAux, not_lt.mpr h]

/-- Witness for C10 at equal bounds. -/
theorem c10_empty_range_no_requests_witness :
    get_historical_measurements_batch (fun _ => MeasHttp.ok MeasJson.noBody) 3 5 5 =
      BatchResult.out [] [] 0 :=
  c10_empty_range_no_requests (fun _ => MeasHttp.ok MeasJson.noBody) 3 5 5 (le_refl 5)

/-- C8 as stated is false: a 200 response whose JSON has no `body` key makes
get_ids raise the KeyError of utility.py line 116 to its caller (neither
except clause catches it), instead of converging to a sentinel return. -/
theorem c8_counterexample_missing_body_raises :
    (get_ids (fun _ => IdsResponse.okRaw none)).1 =
      Except.error (PyErr.keyError ("body")) := rfl

lemma getIdsAux_wf_no_raise (resp : Nat → IdsResponse)
    (hwf : ∀ k, idsWellFormed (resp k) = true) :
    ∀ rl k ids, ∃ d, (getIdsAux resp rl k ids).1 = Except.ok d := by
  intro rl
  induction rl with
  | zero =>
      intro k ids
      rcases hr : resp k with _ | ⟨c, t⟩ | b
      · have hx := hwf k; rw [hr] at hx; simp [idsWellFormed] at hx
      · exact ⟨[], by simp [getIdsAux, hr]⟩
      · rcases b with _ | data
        · have hx := hwf k; rw [hr] at hx; simp [idsWellFormed] at hx
        · cases he : (processStations data ids).isEmpty
          · exact ⟨processStations data ids, by simp [getIdsAux, hr, he]⟩
          · exact ⟨[], by simp [getIdsAux, hr, he]⟩
  | succ rl ih =>
      intro k ids
      rcases hr : resp k with _ | ⟨c, t⟩ | b
      · have hx := hwf k; rw [hr] at hx; simp [idsWellFormed] at hx
      · have hrec := ih (k + 1) ids
        exact ⟨hrec.choose, by simp only [getIdsAux, hr]; exact hrec.choose_spec⟩
      · rcases b with _ | data
        · have hx := hwf k; rw [hr] at hx; simp [idsWellFormed] at hx
        · cases he : (processStations data ids).isEmpty
          · exact ⟨processStations data ids, by simp [getIdsAux, hr, he]⟩
          · have hrec := ih (k + 1) (processStations data ids)
            exact ⟨hrec.choose, by simp only [getIdsAux, hr, he, if_true]; exact hrec.choose_spec⟩

lemma batchAux_wf_no_raise (resp : Nat → MeasHttp)
    (hwf : ∀ k, measWellFormed (resp k) = true) (de : Int) :
    ∀ fuel k db acc csv e n,
      batchAux resp de fuel k db acc csv ≠ BatchResult.raised e n := by
  intro fuel
  induction fuel with
  | zero =>
      intro k db acc csv e n
      by_cases h : db < de <;> simp [batchAux, h]
  | succ f ih =>
      intro k db acc csv e n
      by_cases h : db < de
      · rcases hr : resp k with _ | c | j
        · have hx := hwf k; rw [hr] at hx; simp [measWellFormed] at hx
        · simp [batchAux, h, hr, get_historical_measurements]
        · rcases j with _ | (_ | ⟨e0, es⟩)
          · simp [batchAux, h, hr, get_historical_measurements]
          · simp [batchAux, h, hr, get_historical_measurements]
          · simp only [batchAux, h, hr, get_historical_measurements, if_true]
            exact ih _ _ _ _ e n
      · simp [batchAux, h]

/-- C8 amended: provided every upstream response is either an HTTP-level
error status or a well-formed success document (no network-level failure of
the request call itself, and no 200 response lacking the `body` key), none
of get_ids, get_historical_measurements and get_historical_measurements_batch
raises: every failure converges to a sentinel return (empty mapping, absent
value, or loop exit with partial results). -/
theorem c8_amended_wellformed_no_raise :
    (∀ resp : Nat → IdsResponse, (∀ k, idsWellFormed (resp k) = true) →
       ∃ d, (get_ids resp).1 = Except.ok d) ∧
    (∀ r : MeasHttp, measWellFormed r = true →
       ∃ o, get_historical_measurements r = Except.ok o) ∧
    (∀ (resp : Nat → MeasHttp) (fuel : Nat) (db de : Int) (e : PyErr) (n : Nat),
       (∀ k, measWellFormed (resp k) = true) →
       get_historical_measurements_batch resp fuel db de ≠ BatchResult.raised e n) := by
  refine ⟨fun resp h => getIdsAux_wf_no_raise resp h 5 0 [],
          fun r h => ?_,
          fun resp fuel db de e n h =>
            batchAux_wf_no_raise resp h de fuel 0 db [] [] e n⟩
  rcases r with _ | c | j
  · simp [measWellFormed] at h
  · exact ⟨none, rfl⟩
  · exact ⟨some j, rfl⟩

/-- Witness for the amended C8 at concrete failing-but-well-formed oracles. -/
theorem c8_amended_wellformed_no_raise_witness :
    (∃ d, (get_ids (fun _ => IdsResponse.httpErr 404 ("e"))).1 = Except.ok d) ∧
    (∃ o, get_historical_measurements (MeasHttp.errStatus 404) = Except.ok o) ∧
    get_historical_measurements_batch (fun _ => MeasHttp.errStatus 404) 3 0 10 ≠
      BatchResult.raised PyErr.connectionError 1 :=
  ⟨c8_amended_wellformed_no_raise.1 _ (fun _ => rfl),
   c8_amended_wellformed_no_raise.2.1 _ rfl,
   c8_amended_wellformed_no_raise.2.2 _ 3 0 10 _ 1 (fun _ => rfl)⟩

lemma processStations_cons (st : Station) (data : List Station) (ids : IdsDict) :
    processStations (st :: data) ids =
      processStations data (dictInsert ids st._id (stationInfoOf st)) := rfl

lemma keys_dictInsert (d : IdsDict) (k : String) (v : StationInfo) :
    (dictInsert d k v).map Prod.fst =
      if k ∈ d.map Prod.fst then d.map Prod.fst else d.map Prod.fst ++ [k] := by
  unfold dictInsert
  by_cases h : k ∈ d.map Prod.fst
  · simp only [h, if_true, List.map_map]
    refine List.map_congr_left (fun p _ => ?_)
    by_cases hp : p.1 = k
    · simp [Function.comp, hp]
    · simp [Function.comp, hp]
  · simp [h]

lemma keys_toFinset_dictInsert (d : IdsDict) (k : String) (v : StationInfo) :
    ((dictInsert d k v).map Prod.fst).toFinset =
      insert k (d.map Prod.fst).toFinset := by
  rw [keys_dictInsert]
  by_cases h : k ∈ d.map Prod.fst
  · rw [if_pos h, Finset.insert_eq_self.mpr (List.mem_toFinset.mpr h)]
  · rw [if_neg h]
    ext x
    simp
    tauto

lemma keys_nodup_dictInsert (d : IdsDict) (k : String) (v : StationInfo)
    (h : (d.map Prod.fst).Nodup) : ((dictInsert d k v).map Prod.fst).Nodup := by
  rw [keys_dictInsert]
  by_cases hk : k ∈ d.map Prod.fst
  · simpa [hk] using h
  · simp only [hk, if_false, List.nodup_append]
    refine ⟨h, List.nodup_singleton k, ?_⟩
    intro x hx hk1
    rw [List.mem_singleton] at hk1
    exact hk (hk1 ▸ hx)

lemma keys_nodup_processStations (data : List Station) :
    ∀ ids : IdsDict, (ids.map Prod.fst).Nodup →
      ((processStations data ids).map Prod.fst).Nodup := by
  induction data with
  | nil => intro ids h; exact h
  | cons st data ih =>
      intro ids h
      rw [processStations_cons]
      exact ih _ (keys_nodup_dictInsert _ _ _ h)

lemma keys_toFinset_processStations (data : List Station) :
    ∀ ids : IdsDict, ((processStations data ids).map Prod.fst).toFinset =
      (ids.map Prod.fst).toFinset ∪ (data.map (fun st => st._id)).toFinset := by
  induction data with
  | nil => intro ids; simp [processStations]
  | cons st data ih =>
      intro ids
      rw [processStations_cons, ih, keys_toFinset_dictInsert]
      ext x
      simp

lemma dictInsert_ne_nil (d : IdsDict) (k : String) (v : StationInfo) :
    dictInsert d k v ≠ [] := by
  by_cases h : k ∈ d.map Prod.fst
  · simp only [dictInsert, h, if_true]
    intro hc
    rw [List.map_eq_nil_iff] at hc
    subst hc
    simp at h
  · simp [dictInsert, h]

lemma processStations_ne_nil_of_ne_nil (data : List Station) :
    ∀ ids : IdsDict, ids ≠ [] → processStations data ids ≠ [] := by
  induction data with
  | nil => intro ids h; exact h
  | cons st data ih =>
      intro ids _
      rw [processStations_cons]
      exact ih _ (dictInsert_ne_nil _ _ _)

/-- C2: when the first response is an HTTP success carrying a non-empty
station list, get_ids issues exactly one request, returns that page's
dictionary immediately, and the dictionary has exactly one key per distinct
station `_id` of the response. -/
theorem c2_first_success_distinct_ids (resp : Nat → IdsResponse) (data : List Station)
    (h0 : resp 0 = IdsResponse.okRaw (some data)) (hne : data ≠ []) :
    get_ids resp = (Except.ok (processStations data []), 1) ∧
    (processStations data []).length = (data.map (fun st => st._id)).toFinset.card := by
  have hnonnil : processStations data [] ≠ [] := by
    rcases data with _ | ⟨st, data⟩
    · exact absurd rfl hne
    · rw [processStations_cons]
      exact processStations_ne_nil_of_ne_nil _ _ (dictInsert_ne_nil _ _ _)
  have hempty : (processStations data []).isEmpty = false := by
    rcases hp : processStations data [] with _ | ⟨a, l⟩
    · exact absurd hp hnonnil
    · rfl
  constructor
  · simp [get_ids, getIdsAux, h0, hempty]
  · have hnd := keys_nodup_processStations data [] (by simp)
    have htf := keys_toFinset_processStations data []
    simp only [List.map_nil, List.toFinset_nil, Finset.empty_union] at htf
    calc (processStations data []).length
        = ((processStations data []).map Prod.fst).length := (List.length_map _ _).symm
      _ = ((processStations data []).map Prod.fst).toFinset.card :=
          (List.toFinset_card_of_nodup hnd).symm
      _ = (data.map (fun st => st._id)).toFinset.card := by rw [htf]

/-- A first page with a repeated station identifier, for the C2 witness. -/
def c2Stations : List Station :=
  [{ _id := "aa", modules := ["02:m", "05:n"], place_location := ("0", "1"),
     place_altitude := "10", place_city := some "X" },
   { _id := "bb", modules := [], place_location := ("2", "3"),
     place_altitude := "20", place_city := none },
   { _id := "aa", modules := ["05:z"], place_location := ("4", "5"),
     place_altitude := "30", place_city := none }]

/-- Witness for C2: one request, immediate return, 2 keys for 2 distinct
identifiers among 3 stations. -/
theorem c2_first_success_distinct_ids_witness :
    get_ids (fun _ => IdsResponse.okRaw (some c2Stations)) =
      (Except.ok (processStations c2Stations []), 1) ∧
    (processStations c2Stations []).length =
      ((c2Stations.map (fun st => st._id)).toFinset.card) :=
  c2_first_success_distinct_ids (fun _ => IdsResponse.okRaw (some c2Stations))
    c2Stations rfl (by decide)

lemma batchAux_exit (resp : Nat → MeasHttp) (de : Int) (fuel k : Nat) (db : Int)
    (acc : List Entry) (csv : List CsvRow) (hdb : ¬ db < de) :
    batchAux resp de fuel k db acc csv = BatchResult.out acc csv k := by
  cases fuel <;> simp [batchAux, hdb]

lemma batchAux_succ_stop (resp : Nat → MeasHttp) (de : Int) (f k : Nat) (db : Int)
    (acc : List Entry) (csv : List CsvRow) (hdb : db < de)
    (hs : pageStops (resp k) = true) :
    batchAux resp de (f + 1) k db acc csv = BatchResult.out acc csv (k + 1) := by
  rcases hr : resp k with _ | c | (_ | (_ | ⟨e0, es⟩)) <;> rw [hr] at hs
  · simp [pageStops] at hs
  · simp [batchAux, hdb, hr, get_historical_measurements]
  · simp [batchAux, hdb, hr, get_historical_measurements]
  · simp [batchAux, hdb, hr, get_historical_measurements]
  · simp [pageStops] at hs

lemma batchAux_succ_good (resp : Nat → MeasHttp) (de : Int) (f k : Nat) (db : Int)
    (acc : List Entry) (csv : List CsvRow) (e0 : Entry) (es : List Entry)
    (hdb : db < de) (hr : resp k = MeasHttp.ok (MeasJson.withBody (e0 :: es))) :
    batchAux resp de (f + 1) k db acc csv =
      batchAux resp de f (k + 1) (lastBeg (e0 :: es) + 86400)
        (acc ++ (e0 :: es)) (csv ++ saveRowsOf (e0 :: es)) := by
  rw [batchAux, if_pos hdb, hr]
  rfl

lemma batchAux_succ_raise (resp : Nat → MeasHttp) (de : Int) (f k : Nat) (db : Int)
    (acc : List Entry) (csv : List CsvRow) (hdb : db < de)
    (hr : resp k = MeasHttp.netErr) :
    batchAux resp de (f + 1) k db acc csv =
      BatchResult.raised PyErr.connectionError (k + 1) := by
  rw [batchAux, if_pos hdb, hr]
  rfl

lemma batchAux_out_flatten (resp : Nat → MeasHttp) (de : Int) :
    ∀ fuel k db acc csv E C R,
      batchAux resp de fuel k db acc csv = BatchResult.out E C R →
      ∃ n, (∀ i, i < n → isGoodPage (resp (k + i)) = true) ∧
        E = acc ++ ((List.range n).map (fun i => respBody (resp (k + i)))).flatten ∧
        (R = k + n ∨ R = k + n + 1) := by
  intro fuel
  induction fuel with
  | zero =>
      intro k db acc csv E C R h
      by_cases hdb : db < de
      · simp [batchAux, hdb] at h
      · rw [batchAux_exit resp de 0 k db acc csv hdb] at h
        obtain ⟨h1, h2, h3⟩ := BatchResult.out.inj h
        refine ⟨0, fun i hi => absurd hi (Nat.not_lt_zero i), ?_, ?_⟩
        · simp [h1.symm]
        · omega
  | succ f ih =>
      intro k db acc csv E C R h
      by_cases hdb : db < de
      · rcases hr : resp k with _ | c | (_ | (_ | ⟨e0, es⟩))
        · rw [batchAux_succ_raise resp de f k db acc csv hdb hr] at h
          exact absurd h (by simp)
        · rw [batchAux_succ_stop resp de f k db acc csv hdb (by rw [hr]; rfl)] at h
          obtain ⟨h1, h2, h3⟩ := BatchResult.out.inj h
          refine ⟨0, fun i hi => absurd hi (Nat.not_lt_zero i), ?_, ?_⟩
          · simp [h1.symm]
          · omega
        · rw [batchAux_succ_stop resp de f k db acc csv hdb (by rw [hr]; rfl)] at h
          obtain ⟨h1, h2, h3⟩ := BatchResult.out.inj h
          refine ⟨0, fun i hi => absurd hi (Nat.not_lt_zero i), ?_, ?_⟩
          · simp [h1.symm]
          · omega
        · rw [batchAux_succ_stop resp de f k db acc csv hdb (by rw [hr]; rfl)] at h
          obtain ⟨h1, h2, h3⟩ := BatchResult.out.inj h
          refine ⟨0, fun i hi => absurd hi (Nat.not_lt_zero i), ?_, ?_⟩
          · simp [h1.symm]
          · omega
        · rw [batchAux_succ_good resp de f k db acc csv e0 es hdb hr] at h
          obtain ⟨n, hgood, hE, hR⟩ := ih (k + 1) _ _ _ E C R h
          refine ⟨n + 1, ?_, ?_, ?_⟩
          · intro i hi
            rcases i with _ | j
            · rw [Nat.add_zero, hr]; rfl
            · rw [show k + (j + 1) = k + 1 + j from by omega]
              exact hgood j (by omega)
          · rw [hE, List.range_succ_eq_map]
            simp only [List.map_cons, List.map_map, List.flatten_cons, Nat.add_zero, hr,
              Function.comp_apply, respBody, List.append_assoc]
            congr 2
            exact congrArg List.flatten (List.map_congr_left (fun i _ => by
              simp only [Function.comp_apply]
              rw [show k + 1 + i = k + (i + 1) from by omega]))
          · omega
      · rw [batchAux_exit resp de (f + 1) k db acc csv hdb] at h
        obtain ⟨h1, h2, h3⟩ := BatchResult.out.inj h
        refine ⟨0, fun i hi => absurd hi (Nat.not_lt_zero i), ?_, ?_⟩
        · simp [h1.symm]
        · omega

/-- C3: whenever the batch fetcher returns (list `E`, `R` requests issued),
there is a number `n` of pages such that the first `n` responses are
successful non-empty pages, `E` is the concatenation of their `body` lists
in fetch order, and at most one further request (the one whose answer
stopped the loop) was issued. -/
theorem c3_returns_concatenation (resp : Nat → MeasHttp) (fuel : Nat)
    (db de : Int) (E : List Entry) (C : List CsvRow) (R : Nat)
    (h : get_historical_measurements_batch resp fuel db de = BatchResult.out E C R) :
    ∃ n, (∀ i, i < n → isGoodPage (resp i) = true) ∧
      E = ((List.range n).map (fun i => respBody (resp i))).flatten ∧
      (R = n ∨ R = n + 1) := by
  obtain ⟨n, hgood, hE, hR⟩ := batchAux_out_flatten resp de fuel 0 db [] [] E C R h
  refine ⟨n, fun i hi => by simpa using hgood i hi, ?_, by omega⟩
  rw [hE]
  simp

/-- Oracle for the C3 witness: one good page, then an empty page. -/
def c3Resp : Nat → MeasHttp
  | 0 => MeasHttp.ok (MeasJson.withBody [⟨0, 86400, [(1, 2, 3)]⟩])
  | _ + 1 => MeasHttp.ok (MeasJson.withBody [])

/-- Witness for C3: the result of a 2-request run is the single page body. -/
theorem c3_returns_concatenation_witness :
    ∃ n, (∀ i, i < n → isGoodPage (c3Resp i) = true) ∧
      ([⟨0, 86400, [(1, 2, 3)]⟩] : List Entry) =
        ((List.range n).map (fun i => respBody (c3Resp i))).flatten ∧
      ((2 : Nat) = n ∨ (2 : Nat) = n + 1) :=
  c3_returns_concatenation c3Resp 3 0 100000 [⟨0, 86400, [(1, 2, 3)]⟩]
    [⟨0, 1, 2, 3⟩] 2 (by rfl)

/-- C4: if the first page is a success with a non-empty body and the second
answer is a failure (None), a document without `body`, or an empty `body`,
the batch fetcher returns exactly the first page's entries (writing exactly
its rows) and issues at most two requests: no third request happens. -/
theorem c4_second_page_failure_stops (resp : Nat → MeasHttp) (fuel : Nat)
    (db de : Int) (b : List Entry)
    (hdb : db < de) (h0 : resp 0 = MeasHttp.ok (MeasJson.withBody b)) (hb : b ≠ [])
    (h1 : pageStops (resp 1) = true) :
    ∃ R, R ≤ 2 ∧
      get_historical_measurements_batch resp (fuel + 2) db de =
        BatchResult.out b (saveRowsOf b) R := by
  obtain ⟨e0, es, rfl⟩ := List.exists_cons_of_ne_nil hb
  rw [get_historical_measurements_batch,
     show fuel + 2 = (fuel + 1) + 1 from rfl,
     batchAux_succ_good resp de (fuel + 1) 0 db [] [] e0 es hdb h0]
  simp only [List.nil_append]
  by_cases h2 : lastBeg (e0 :: es) + 86400 < de
  · refine ⟨2, by omega, ?_⟩
    rw [batchAux_succ_stop resp de fuel 1 _ _ _ h2 h1]
  · refine ⟨1, by omega, ?_⟩
    rw [batchAux_exit resp de (fuel + 1) 1 _ _ _ h2]

/-- Oracle for the C4 witness: one good page, then an HTTP failure. -/
def c4Resp : Nat → MeasHttp
  | 0 => MeasHttp.ok (MeasJson.withBody [⟨0, 86400, [(1, 2, 3)]⟩])
  | _ + 1 => MeasHttp.errStatus 500

/-- Witness for C4. -/
theorem c4_second_page_failure_stops_witness :
    ∃ R, R ≤ 2 ∧
      get_historical_measurements_batch c4Resp (1 + 2) 0 200000 =
        BatchResult.out [⟨0, 86400, [(1, 2, 3)]⟩]
          (saveRowsOf [⟨0, 86400, [(1, 2, 3)]⟩]) R :=
  c4_second_page_failure_stops c4Resp 1 0 200000 [⟨0, 86400, [(1, 2, 3)]⟩]
    (by norm_num) rfl (by decide) rfl

lemma lastBeg_mem : ∀ b : List Entry, b ≠ [] → ∃ e ∈ b, lastBeg b = e.beg_time := by
  intro b
  induction b with
  | nil => intro h; exact absurd rfl h
  | cons e es ih =>
      intro _
      rcases es with _ | ⟨e2, es⟩
      · exact ⟨e, by simp, rfl⟩
      · obtain ⟨x, hx, hlb⟩ := ih (by simp)
        exact ⟨x, List.mem_cons_of_mem e hx, by rw [lastBeg]; exact hlb⟩

/-- One synthetic single-entry page with the given starting timestamp. -/
def synthEntry (b : Int) : Entry :=
  { beg_time := b, step_time := 86400, value := [(0, 0, 0)] }

/-- The synthetic 3-page oracle of the C5 scenario: single-entry pages with
beg_times T, T+86400, T+172800, then no more data. -/
def syntheticResp (T : Int) : Nat → MeasHttp
  | 0 => MeasHttp.ok (MeasJson.withBody [synthEntry T])
  | 1 => MeasHttp.ok (MeasJson.withBody [synthEntry (T + 86400)])
  | 2 => MeasHttp.ok (MeasJson.withBody [synthEntry (T + 172800)])
  | _ + 3 => MeasHttp.ok MeasJson.noBody

/-- C5: (i) after a successful non-empty batch the loop recurses with the
cursor set to the last entry's beg_time plus 86400, the page appended to
the accumulator and its rows appended to the CSV; (ii) when every entry of
the batch has beg_time at least the current cursor, the new cursor is at
least the old one, so the cursor is monotonically non-decreasing across
iterations; (iii) the loop returns the current state exactly when the
cursor has reached date_end or the answer carries an empty/absent body
(or a failure status); (iv) on the synthetic 3-page sequence with beg_times
T, T+86400, T+172800 and date_end = T+259200, exactly 3 requests are
issued. -/
theorem c5_cursor_invariant :
    (∀ (resp : Nat → MeasHttp) (f k : Nat) (db de : Int) (acc : List Entry)
       (csv : List CsvRow) (e0 : Entry) (es : List Entry),
       db < de → resp k = MeasHttp.ok (MeasJson.withBody (e0 :: es)) →
       batchAux resp de (f + 1) k db acc csv =
         batchAux resp de f (k + 1) (lastBeg (e0 :: es) + 86400)
           (acc ++ (e0 :: es)) (csv ++ saveRowsOf (e0 :: es))) ∧
    (∀ (db : Int) (b : List Entry), b ≠ [] → (∀ e ∈ b, db ≤ e.beg_time) →
       db ≤ lastBeg b + 86400) ∧
    (∀ (resp : Nat → MeasHttp) (f k : Nat) (db de : Int) (acc : List Entry)
       (csv : List CsvRow), de ≤ db ∨ pageStops (resp k) = true →
       ∃ R, R ≤ k + 1 ∧
         batchAux resp de (f + 1) k db acc csv = BatchResult.out acc csv R) ∧
    (∀ T : Int, get_historical_measurements_batch (syntheticResp T) 5 T (T + 259200) =
       BatchResult.out
         [synthEntry T, synthEntry (T + 86400), synthEntry (T + 172800)]
         [⟨T, 0, 0, 0⟩, ⟨T + 86400, 0, 0, 0⟩, ⟨T + 172800, 0, 0, 0⟩] 3) := by
  refine ⟨fun resp f k db de acc csv e0 es hdb hr =>
            batchAux_succ_good resp de f k db acc csv e0 es hdb hr,
          fun db b hb hmem => ?_, ?_, ?_⟩
  · obtain ⟨e, he, hl⟩ := lastBeg_mem b hb
    have := hmem e he
    omega
  · intro resp f k db de acc csv h
    by_cases hdb : db < de
    · rcases h with hde | hs
      · omega
      · exact ⟨k + 1, le_refl _, batchAux_succ_stop resp de f k db acc csv hdb hs⟩
    · exact ⟨k, by omega, batchAux_exit resp de (f + 1) k db acc csv hdb⟩
  · intro T
    have s1 : get_historical_measurements_batch (syntheticResp T) 5 T (T + 259200)
        = batchAux (syntheticResp T) (T + 259200) 4 1 (T + 86400)
            [synthEntry T] [⟨T, 0, 0, 0⟩] := by
      rw [get_historical_measurements_batch, show (5 : Nat) = 4 + 1 from rfl,
         batchAux_succ_good _ _ 4 0 T [] [] (synthEntry T) [] (by omega) rfl]
      simp [lastBeg, synthEntry, saveRowsOf, writeEntriesAux, writeValues]
    have s2 : batchAux (syntheticResp T) (T + 259200) 4 1 (T + 86400)
          [synthEntry T] [⟨T, 0, 0, 0⟩]
        = batchAux (syntheticResp T) (T + 259200) 3 2 (T + 172800)
            [synthEntry T, synthEntry (T + 86400)]
            [⟨T, 0, 0, 0⟩, ⟨T + 86400, 0, 0, 0⟩] := by
      rw [show (4 : Nat) = 3 + 1 from rfl,
         batchAux_succ_good _ _ 3 1 (T + 86400) _ _ (synthEntry (T + 86400)) []
           (by omega) rfl]
      simp [lastBeg, synthEntry, saveRowsOf, writeEntriesAux, writeValues]
      ring_nf
    have s3 : batchAux (syntheticResp T) (T + 259200) 3 2 (T + 172800)
          [synthEntry T, synthEntry (T + 86400)]
          [⟨T, 0, 0, 0⟩, ⟨T + 86400, 0, 0, 0⟩]
        = batchAux (syntheticResp T) (T + 259200) 2 3 (T + 259200)
            [synthEntry T, synthEntry (T + 86400), synthEntry (T + 172800)]
            [⟨T, 0, 0, 0⟩, ⟨T + 86400, 0, 0, 0⟩, ⟨T + 172800, 0, 0, 0⟩] := by
      rw [show (3 : Nat) = 2 + 1 from rfl,
         batchAux_succ_good _ _ 2 2 (T + 172800) _ _ (synthEntry (T + 172800)) []
           (by omega) rfl]
      simp [lastBeg, synthEntry, saveRowsOf, writeEntriesAux, writeValues]
      ring_nf
    rw [s1, s2, s3]
    exact batchAux_exit _ _ 2 3 _ _ _ (by omega)

/-- Witness for C5, instantiating the step rule, monotonicity, the stop rule
and the synthetic scenario at concrete inputs. -/
theorem c5_cursor_invariant_witness :
    (batchAux (fun _ => MeasHttp.ok (MeasJson.withBody [synthEntry 7])) 50000 (2 + 1) 0 0 [] [] =
       batchAux (fun _ => MeasHttp.ok (MeasJson.withBody [synthEntry 7])) 50000 2 1
         (lastBeg [synthEntry 7] + 86400) ([] ++ [synthEntry 7]) ([] ++ saveRowsOf [synthEntry 7])) ∧
    ((0 : Int) ≤ lastBeg [synthEntry 7] + 86400) ∧
    (∃ R, R ≤ 0 + 1 ∧
       batchAux (fun _ => MeasHttp.errStatus 500) 1 (0 + 1) 0 0 [] [] =
         BatchResult.out [] [] R) ∧
    get_historical_measurements_batch (syntheticResp 0) 5 0 (0 + 259200) =
      BatchResult.out [synthEntry 0, synthEntry (0 + 86400), synthEntry (0 + 172800)]
        [⟨0, 0, 0, 0⟩, ⟨0 + 86400, 0, 0, 0⟩, ⟨0 + 172800, 0, 0, 0⟩] 3 :=
  ⟨c5_cursor_invariant.1 _ 2 0 0 50000 [] [] (synthEntry 7) [] (by norm_num) rfl,
   c5_cursor_invariant.2.1 0 [synthEntry 7] (by simp)
     (fun e he => by
       rw [List.mem_singleton] at he
       subst he
       norm_num [synthEntry]),
   c5_cursor_invariant.2.2.1 (fun _ => MeasHttp.errStatus 500) 0 0 0 1 [] []
     (Or.inr rfl),
   c5_cursor_invariant.2.2.2 0⟩

/-- The timestamp progression t, t+86400, ..., of length n, as the spec's
fixed step interval describes it. -/
def stampSeq (t : Int) (n : Nat) : List Int :=
  (List.range n).map (fun (i : Nat) => t + 86400 * (i : Int))

lemma stampSeq_succ_cons (t : Int) (n : Nat) :
    stampSeq t (n + 1) = t :: stampSeq (t + 86400) n := by
  rw [stampSeq, List.range_succ_eq_map, List.map_cons, List.map_map]
  simp only [Nat.cast_zero, mul_zero, add_zero, stampSeq]
  refine congrArg (List.cons t) (List.map_congr_left (fun i _ => ?_))
  simp only [Function.comp_apply]
  push_cast
  ring

lemma stampSeq_append (t : Int) (a b : Nat) :
    stampSeq t (a + b) = stampSeq t a ++ stampSeq (t + 86400 * (a : Int)) b := by
  induction a generalizing t with
  | zero => simp [stampSeq]
  | succ a ih =>
      rw [show a + 1 + b = (a + b) + 1 from by omega, stampSeq_succ_cons,
         stampSeq_succ_cons, ih]
      rw [show t + 86400 + 86400 * (a : Int) = t + 86400 * ((a : Nat) + 1 : Int) from by ring]
      push_cast
      simp

lemma writeValues_length (vs : List (Int × Int × Int)) :
    ∀ t, (writeValues t vs).length = vs.length := by
  induction vs with
  | nil => intro t; rfl
  | cons v vs ih => intro t; simp [writeValues, ih]

lemma writeValues_map_time (vs : List (Int × Int × Int)) :
    ∀ t, (writeValues t vs).map (fun r => r.acquisition_time) = stampSeq t vs.length := by
  induction vs with
  | nil => intro t; simp [writeValues, stampSeq]
  | cons v vs ih =>
      intro t
      rw [writeValues, List.map_cons, ih, List.length_cons, stampSeq_succ_cons]

lemma writeEntriesAux_map_time (body : List Entry) :
    ∀ t, (writeEntriesAux t body).map (fun r => r.acquisition_time)
      = stampSeq t (writeEntriesAux t body).length := by
  induction body with
  | nil => intro t; simp [writeEntriesAux, stampSeq]
  | cons e es ih =>
      intro t
      rw [writeEntriesAux, List.map_append, List.length_append,
         writeValues_map_time, writeValues_length, ih, stampSeq_append]

/-- The measurement batch of the C6 counterexample: the second entry starts
at 1000000, far from the first entry's grid. -/
def c6Body : List Entry :=
  [⟨0, 86400, [(1, 2, 3)]⟩, ⟨1000000, 86400, [(4, 5, 6)]⟩]

/-- C6 as stated is false: on a batch whose second entry has beg_time
1000000, the code stamps that entry's first value with 86400 (the running
counter started from the first entry's beg_time), not with the entry's own
beg_time — `acquisition_time` is initialised once from `body[0]` at
utility.py line 246 and never re-read per entry. -/
theorem c6_counterexample_second_entry_restamped :
    save_measurements_to_csv c6Body = some [⟨0, 1, 2, 3⟩, ⟨86400, 4, 5, 6⟩] ∧
    c6Body.map (fun e => e.beg_time) = [0, 1000000] ∧
    (86400 : Int) ≠ 1000000 :=
  ⟨rfl, rfl, by norm_num⟩

/-- C6 amended: the written rows carry timestamps sampled at the fixed
86400-second step starting from the FIRST entry's beg_time and running
continuously across all entries; in particular only the first entry's first
value is guaranteed to be stamped with its own beg_time. -/
theorem c6_amended_rows_from_first_beg_time (e0 : Entry) (es : List Entry)
    (rows : List CsvRow)
    (h : save_measurements_to_csv (e0 :: es) = some rows) :
    rows.map (fun r => r.acquisition_time) = stampSeq e0.beg_time rows.length := by
  have hrows : writeEntriesAux e0.beg_time (e0 :: es) = rows :=
    Option.some.inj (by rw [← h, save_measurements_to_csv])
  rw [← hrows]
  exact writeEntriesAux_map_time (e0 :: es) e0.beg_time

/-- Witness for the amended C6 on a two-value entry. -/
theorem c6_amended_rows_from_first_beg_time_witness :
    ([⟨5, 1, 1, 1⟩, ⟨86405, 2, 2, 2⟩] : List CsvRow).map (fun r => r.acquisition_time)
      = stampSeq 5 ([⟨5, 1, 1, 1⟩, ⟨86405, 2, 2, 2⟩] : List CsvRow).length :=
  c6_amended_rows_from_first_beg_time ⟨5, 86400, [(1, 1, 1), (2, 2, 2)]⟩ [] _ rfl

/-- C7: the date string 20230115 with time string 1230 converts to the UNIX
timestamp of 2023-01-15 12:30:00 local time (1673785800 minus the local UTC
offset); a failing parse such as date string abcd yields none; and every
input pair on which parsing fails yields none rather than an error. -/
theorem c7_convert_examples (tzoff : Int) :
    convert_to_unix_timestamp tzoff ("20230115") ("1230") = some (1673785800 - tzoff) ∧
    convert_to_unix_timestamp tzoff ("abcd") ("1230") = none ∧
    (∀ ds ts, parseDate ds = none ∨ parseTime ts = none →
       convert_to_unix_timestamp tzoff ds ts = none) := by
  refine ⟨?_, rfl, ?_⟩
  · rw [convert_to_unix_timestamp,
       show parseDate ("20230115") = some (2023, 1, 15) from rfl,
       show parseTime ("1230") = some (12, 30) from rfl]
    norm_num [show daysFromCivil 2023 1 15 = 19372 from rfl]
  · intro ds ts h
    rcases h with h | h
    · simp [convert_to_unix_timestamp, h]
    · rcases hd : parseDate ds with _ | ⟨y, m, d⟩ <;>
        simp [convert_to_unix_timestamp, hd, h]

/-- Witness for C7 at offset 3600 and a month-13 date. -/
theorem c7_convert_examples_witness :
    convert_to_unix_timestamp 3600 ("20230115") ("1230") = some 1673782200 ∧
    convert_to_unix_timestamp 3600 ("20231301") ("1230") = none := by
  constructor
  · rw [(c7_convert_examples 3600).1]
    norm_num
  · exact (c7_convert_examples 3600).2.2 ("20231301") ("1230") (Or.inl rfl)

